import Mathlib

/-!
Shallow embedding of `src/sales_analyzer.py` (class `SalesAnalyzer`).

The module defines a stateful session object with operations
`__init__`, `load_data`, `analyze`, `save_plot`.  External collaborators
(the OpenAI handle constructor, `pai.config.set`, the filesystem together
with `pd.read_csv`, the `SmartDataframe` constructor and its `chat`
method, and the plotting library `plt`) are modelled as explicit
parameters; observable effects (log lines printed, collaborator call
counts) are returned alongside the result so that the contracts about
them can be stated.

Python exceptions are modelled by the `PyError` type; a method that can
raise returns an `Except PyError` value (raised exception) or an outcome
type distinguishing a raised exception from a normal return.
-/

/-- Python exception values relevant to the module: `ValueError`,
`FileNotFoundError`, `NameError`, and an arbitrary other `Exception`.
All four are subclasses of Python's `Exception`, hence all are caught by
an `except Exception` clause.  `msg` models `str(e)`. -/
inductive PyError where
  | valueError (m : String)
  | fileNotFoundError (m : String)
  | nameError (m : String)
  | exn (m : String)
deriving DecidableEq, Repr

/-- `str(e)` for the modelled exception values. -/
def PyError.msg : PyError → String
  | .valueError m => m
  | .fileNotFoundError m => m
  | .nameError m => m
  | .exn m => m

/-- An in-memory table as produced by `pd.read_csv`: named columns and
data rows.  Its internal structure is opaque to the module. -/
structure DataFrame where
  columns : List String
  rows : List (List String)
deriving DecidableEq, Repr

/-- The handle produced by `OpenAI(api_token=api_key)`. -/
structure OpenAIHandle where
  apiToken : String
deriving DecidableEq, Repr

/-- The session state: `self.llm` and `self.df` of `SalesAnalyzer`.
(`self.pai` is the imported module itself, a constant, and is omitted.) -/
structure SalesAnalyzer where
  llm : OpenAIHandle
  df : Option DataFrame
deriving DecidableEq, Repr

/-- The value of `SmartDataframe(self.df, config={"llm": self.llm})`
when construction succeeds: an ephemeral view over the table bound to
the session's engine handle. -/
structure SmartDf where
  df : DataFrame
  llm : OpenAIHandle
deriving DecidableEq, Repr

/-- An opaque result value returned by `smart_df.chat` (text, number or
table). -/
inductive PyValue where
  | vstr (s : String)
  | vnum (n : Int)
  | vtable (t : DataFrame)
deriving DecidableEq, Repr

/-- The exact message of the `ValueError` raised by `__init__` when the
API key is missing (line 18 of `sales_analyzer.py`). -/
def initErrMsg : String := "OpenAI API key not found. Please set it in .env file"

/-- Result of `SalesAnalyzer.__init__`: the raised exception or the
constructed session, together with how many times the `OpenAI`
constructor and `pai.config.set` were invoked. -/
structure InitResult where
  result : Except PyError SalesAnalyzer
  openaiCalls : Nat
  configSetCalls : Nat

/-- `SalesAnalyzer.__init__` (lines 11-25).  `apiKeyEnv` is the value of
`os.getenv('OPENAI_API_KEY')` (`none` when the variable is unset).
Python's `if not api_key` is true exactly when the key is `None` or the
empty string; in that case a `ValueError` is raised before `OpenAI` is
ever called.  Otherwise the handle is constructed, registered via
`pai.config.set`, and stored with `self.df = None`. -/
def SalesAnalyzer.init (apiKeyEnv : Option String) : InitResult :=
  match apiKeyEnv with
  | none =>
      { result := .error (.valueError initErrMsg)
        openaiCalls := 0
        configSetCalls := 0 }
  | some s =>
      if s.isEmpty then
        { result := .error (.valueError initErrMsg)
          openaiCalls := 0
          configSetCalls := 0 }
      else
        { result := .ok { llm := { apiToken := s }, df := none }
          openaiCalls := 1
          configSetCalls := 1 }

/-- `SalesAnalyzer.load_data` (lines 27-32).  `fs path` models the
filesystem and parser: `none` when `os.path.exists(file_path)` is false,
`some (.error e)` when the file exists but `pd.read_csv` raises `e`, and
`some (.ok df)` when parsing succeeds.  The method prints
`'Loading data with rows'` after the existence check and before the
parse, and assigns `self.df` only when the parse succeeds.  The returned
triple is (raised exception or unit, session state after the call, log
lines printed). -/
def load_data (fs : String → Option (Except PyError DataFrame))
    (a : SalesAnalyzer) (path : String) :
    Except PyError Unit × SalesAnalyzer × List String :=
  match fs path with
  | none => (.error (.fileNotFoundError ("CSV file not found: " ++ path)), a, [])
  | some (.error e) => (.error e, a, ["Loading data with rows"])
  | some (.ok df) => (.ok (), { a with df := some df }, ["Loading data with rows"])

/-- Outcome of `analyze`: either an exception propagated to the caller,
or a normal return (`none` models Python's `None`). -/
inductive AnalyzeOutcome where
  | raised (e : PyError)
  | returned (r : Option PyValue)
deriving DecidableEq, Repr

/-- Observable effects of one `analyze` call: how many times the
`SmartDataframe` constructor and `chat` were invoked, and the log lines
printed. -/
structure AnalyzeEffects where
  mkSmartCalls : Nat
  chatCalls : Nat
  log : List String
deriving DecidableEq, Repr

/-- `SalesAnalyzer.analyze` (lines 34-44).  `mkSmart` models the
`SmartDataframe` constructor and `chat` its `chat` method; each may
raise.  If `self.df is None` a `ValueError` is raised with no
collaborator call.  The `SmartDataframe` construction happens before the
`try` block, so an exception it raises propagates; the `try` wraps only
the `chat` call: on success its result is returned unchanged, and on any
exception `'Error during analysis: ' + str(e)` is printed and `None` is
returned.  The method never assigns to `self`, so the returned session
state is the input state.  The returned triple is (outcome, session
state after the call, effects). -/
def analyze (mkSmart : DataFrame → OpenAIHandle → Except PyError SmartDf)
    (chat : SmartDf → String → Except PyError PyValue)
    (a : SalesAnalyzer) (query : String) :
    AnalyzeOutcome × SalesAnalyzer × AnalyzeEffects :=
  match a.df with
  | none =>
      (.raised (.valueError "No data loaded. Please load a CSV file first"), a,
        { mkSmartCalls := 0, chatCalls := 0, log := [] })
  | some df =>
      match mkSmart df a.llm with
      | .error e => (.raised e, a, { mkSmartCalls := 1, chatCalls := 0, log := [] })
      | .ok sdf =>
          match chat sdf query with
          | .ok r =>
              (.returned (some r), a, { mkSmartCalls := 1, chatCalls := 1, log := [] })
          | .error e =>
              (.returned none, a,
                { mkSmartCalls := 1, chatCalls := 1,
                  log := ["Error during analysis: " ++ e.msg] })

/-- The state of the plotting library `plt`: the list returned by
`plt.get_fignums()`. -/
structure Plt where
  fignums : List Nat
deriving DecidableEq, Repr

/-- The module-global binding of the name `plt` in `sales_analyzer.py`.
The module's imports (lines 1-7) are `os`, `load_dotenv`, `pandasai as
pai`, `LLM`, `pandas as pd`, `OpenAI`, and `SmartDataframe`; the name
`plt` is never imported nor assigned anywhere in the module, so the
binding is absent and referencing `plt` raises `NameError` at run
time. -/
def module_plt : Option Plt := none

/-- Observable effects of one `save_plot` call: the filename arguments
of the `plt.savefig` calls made, the number of `plt.close()` calls, and
the log lines printed. -/
structure SaveEffects where
  savefigCalls : List String
  closeCalls : Nat
  log : List String
deriving DecidableEq, Repr

/-- `SalesAnalyzer.save_plot` (lines 46-51).  `pltBinding` is the
module-global binding of the free name `plt` (in the source module
itself it is `module_plt`, i.e. absent; the test suite patches it in).
Looking up an unbound name raises `NameError`.  With a binding present:
if `plt.get_fignums()` is non-empty (Python list truthiness) the figure
is saved to `filename`, closed, and a confirmation line is printed;
otherwise nothing happens.  The method reads no session state and
assigns none. -/
def save_plot (pltBinding : Option Plt) (filename : String) :
    Except PyError Unit × SaveEffects :=
  match pltBinding with
  | none =>
      (.error (.nameError "name 'plt' is not defined"),
        { savefigCalls := [], closeCalls := 0, log := [] })
  | some p =>
      if p.fignums.isEmpty then
        (.ok (), { savefigCalls := [], closeCalls := 0, log := [] })
      else
        (.ok (),
          { savefigCalls := [filename], closeCalls := 1,
            log := ["Plot saved as " ++ filename] })

/-! Concrete sample values used by the witness theorems. -/

/-- A sample table (the header of `sample_test_data.csv` from the test
suite, with no data rows). -/
def sampleDf : DataFrame :=
  { columns := ["Date", "Product", "Sales", "Region"], rows := [] }

/-- A sample engine handle. -/
def sampleHandle : OpenAIHandle := { apiToken := "test_key" }

/-- A sample session with a table loaded. -/
def sampleAnalyzer : SalesAnalyzer := { llm := sampleHandle, df := some sampleDf }

/-- A sample session with no table loaded. -/
def sampleAnalyzerNoDf : SalesAnalyzer := { llm := sampleHandle, df := none }

/-- A `SmartDataframe` constructor that always succeeds. -/
def okMk : DataFrame → OpenAIHandle → Except PyError SmartDf :=
  fun d h => .ok { df := d, llm := h }

/-- A `chat` collaborator that always raises `Exception("LLM error")`. -/
def errChat : SmartDf → String → Except PyError PyValue :=
  fun _ _ => .error (.exn "LLM error")

/-- A `chat` collaborator that always returns `"Analysis result"`. -/
def okChat : SmartDf → String → Except PyError PyValue :=
  fun _ _ => .ok (.vstr "Analysis result")

/-- A `SmartDataframe` constructor that always raises. -/
def errMk : DataFrame → OpenAIHandle → Except PyError SmartDf :=
  fun _ _ => .error (.exn "bad view")

/-- A filesystem with no files. -/
def fsEmpty : String → Option (Except PyError DataFrame) :=
  fun _ => none

/-- A sample table for the first file of the two-load scenario. -/
def dfA : DataFrame := { columns := ["x"], rows := [["1"]] }

/-- A sample table for the second file of the two-load scenario. -/
def dfB : DataFrame := { columns := ["y"], rows := [["2"], ["3"]] }

/-- A filesystem holding two valid files. -/
def fsTwo : String → Option (Except PyError DataFrame) :=
  fun p =>
    if p = "a.csv" then some (.ok dfA)
    else if p = "b.csv" then some (.ok dfB)
    else none

/-! Claim theorems. -/

/-- Claim C1: with a table loaded and the ephemeral view constructed,
any error raised by the query-engine collaborator's `chat` call is
caught: `analyze` returns Python's `None` (not a re-raised exception)
and prints exactly one log line `"Error during analysis: <message>"`
containing the error's message text. -/
theorem analyze_collaborator_error_caught
    (mkSmart : DataFrame → OpenAIHandle → Except PyError SmartDf)
    (chat : SmartDf → String → Except PyError PyValue)
    (a : SalesAnalyzer) (q : String)
    (df : DataFrame) (sdf : SmartDf) (e : PyError)
    (hdf : a.df = some df) (hmk : mkSmart df a.llm = .ok sdf)
    (hchat : chat sdf q = .error e) :
    analyze mkSmart chat a q =
      (.returned none, a,
        { mkSmartCalls := 1, chatCalls := 1,
          log := ["Error during analysis: " ++ e.msg] }) := by
  simp [analyze, hdf, hmk, hchat]

/-- Witness for C1 at concrete inputs: the collaborator raises
`Exception("LLM error")` and the single log line reads
`"Error during analysis: LLM error"`. -/
theorem analyze_collaborator_error_caught_witness :
    analyze okMk errChat sampleAnalyzer "Test query" =
      (.returned none, sampleAnalyzer,
        { mkSmartCalls := 1, chatCalls := 1,
          log := ["Error during analysis: LLM error"] }) :=
  analyze_collaborator_error_caught okMk errChat sampleAnalyzer "Test query"
    sampleDf { df := sampleDf, llm := sampleHandle } (.exn "LLM error") rfl rfl rfl

/-- Claim C2 (code evaluated at the failing input): in the module as
written the name `plt` is unbound, so `save_plot("test_plot.png")`
raises `NameError` before the figure-pending check, performing no save,
no close, and printing nothing — contrary to the claimed
save/close/log behaviour. -/
theorem save_plot_pending_figure_still_raises :
    save_plot module_plt "test_plot.png" =
      (.error (.nameError "name 'plt' is not defined"),
        { savefigCalls := [], closeCalls := 0, log := [] }) := rfl

/-- Claim C3 (code evaluated at the failing input): with the default
filename and regardless of any figure state, `save_plot` raises
`NameError` because `plt` is unbound — it is not the claimed silent,
error-free no-op. -/
theorem save_plot_no_figure_still_raises :
    save_plot module_plt "analysis_plot.png" =
      (.error (.nameError "name 'plt' is not defined"),
        { savefigCalls := [], closeCalls := 0, log := [] }) := rfl

/-- Claim C4: when the credential is absent (`None`) or empty (`""`),
`__init__` raises `ValueError` whose message contains
`"API key not found"`, and neither the `OpenAI` constructor nor
`pai.config.set` is ever invoked. -/
theorem init_missing_credential (key : Option String)
    (h : key = none ∨ key = some "") :
    SalesAnalyzer.init key =
      { result := .error (.valueError initErrMsg)
        openaiCalls := 0
        configSetCalls := 0 }
    ∧ ∃ s t, initErrMsg = s ++ ("API key not found" ++ t) := by
  refine ⟨?_, "OpenAI ", ". Please set it in .env file", by decide⟩
  rcases h with h | h <;> subst h <;> rfl

/-- Witness for C4 at the concrete input `None` (variable unset). -/
theorem init_missing_credential_witness :
    SalesAnalyzer.init none =
      { result := .error (.valueError initErrMsg)
        openaiCalls := 0
        configSetCalls := 0 }
    ∧ ∃ s t, initErrMsg = s ++ ("API key not found" ++ t) :=
  init_missing_credential none (Or.inl rfl)

/-- Claim C5: with no table loaded, `analyze` raises `ValueError`
(`"No data loaded. Please load a CSV file first"`) for every query and
every collaborator behaviour, and makes zero collaborator calls. -/
theorem analyze_no_data_raises
    (mkSmart : DataFrame → OpenAIHandle → Except PyError SmartDf)
    (chat : SmartDf → String → Except PyError PyValue)
    (a : SalesAnalyzer) (q : String) (h : a.df = none) :
    analyze mkSmart chat a q =
      (.raised (.valueError "No data loaded. Please load a CSV file first"), a,
        { mkSmartCalls := 0, chatCalls := 0, log := [] }) := by
  simp [analyze, h]

/-- Witness for C5 at a concrete fresh session. -/
theorem analyze_no_data_raises_witness :
    analyze okMk okChat sampleAnalyzerNoDf "Test query" =
      (.raised (.valueError "No data loaded. Please load a CSV file first"),
        sampleAnalyzerNoDf,
        { mkSmartCalls := 0, chatCalls := 0, log := [] }) :=
  analyze_no_data_raises okMk okChat sampleAnalyzerNoDf "Test query" rfl

/-- Claim C6: loading a non-existent path raises `FileNotFoundError`
whose message names the path, leaves the session state unchanged, and
prints nothing. -/
theorem load_data_not_found (fs : String → Option (Except PyError DataFrame))
    (a : SalesAnalyzer) (path : String) (h : fs path = none) :
    load_data fs a path =
      (.error (.fileNotFoundError ("CSV file not found: " ++ path)), a, []) := by
  simp [load_data, h]

/-- Witness for C6 at a concrete path on an empty filesystem. -/
theorem load_data_not_found_witness :
    load_data fsEmpty sampleAnalyzerNoDf "no_such_file.csv" =
      (.error (.fileNotFoundError ("CSV file not found: " ++ "no_such_file.csv")),
        sampleAnalyzerNoDf, []) :=
  load_data_not_found fsEmpty sampleAnalyzerNoDf "no_such_file.csv" rfl

/-- Claim C7: after two successful loads the session's table is exactly
the parse of the second file, with no residual state from the first: the
whole session equals the original handle plus the second table. -/
theorem load_data_twice_second_wins
    (fs : String → Option (Except PyError DataFrame))
    (a : SalesAnalyzer) (p1 p2 : String) (d1 d2 : DataFrame)
    (h1 : fs p1 = some (.ok d1)) (h2 : fs p2 = some (.ok d2)) :
    (load_data fs (load_data fs a p1).2.1 p2).2.1 =
      { llm := a.llm, df := some d2 } := by
  simp [load_data, h1, h2]

/-- Witness for C7 at two concrete distinct files. -/
theorem load_data_twice_second_wins_witness :
    (load_data fsTwo (load_data fsTwo sampleAnalyzerNoDf "a.csv").2.1 "b.csv").2.1 =
      { llm := sampleHandle, df := some dfB } :=
  load_data_twice_second_wins fsTwo sampleAnalyzerNoDf "a.csv" "b.csv" dfA dfB rfl rfl

/-- Claim C8: with a table loaded, when the view construction and the
`chat` call both succeed, `analyze` returns the collaborator's result
value unchanged and the session state after the call equals the state
before it. -/
theorem analyze_success_passthrough
    (mkSmart : DataFrame → OpenAIHandle → Except PyError SmartDf)
    (chat : SmartDf → String → Except PyError PyValue)
    (a : SalesAnalyzer) (q : String)
    (df : DataFrame) (sdf : SmartDf) (r : PyValue)
    (hdf : a.df = some df) (hmk : mkSmart df a.llm = .ok sdf)
    (hchat : chat sdf q = .ok r) :
    analyze mkSmart chat a q =
      (.returned (some r), a, { mkSmartCalls := 1, chatCalls := 1, log := [] }) := by
  simp [analyze, hdf, hmk, hchat]

/-- Witness for C8: the collaborator returns `"Analysis result"` and the
caller receives exactly `"Analysis result"`. -/
theorem analyze_success_passthrough_witness :
    analyze okMk okChat sampleAnalyzer "Test query" =
      (.returned (some (.vstr "Analysis result")), sampleAnalyzer,
        { mkSmartCalls := 1, chatCalls := 1, log := [] }) :=
  analyze_success_passthrough okMk okChat sampleAnalyzer "Test query"
    sampleDf { df := sampleDf, llm := sampleHandle } (.vstr "Analysis result")
    rfl rfl rfl

/-- Claim C9: an exception raised while constructing the ephemeral
`SmartDataframe` view — which happens before the `try` block — is not
caught: `analyze` re-raises it to the caller, the `chat` collaborator is
never invoked, and nothing is printed. -/
theorem analyze_view_error_propagates
    (mkSmart : DataFrame → OpenAIHandle → Except PyError SmartDf)
    (chat : SmartDf → String → Except PyError PyValue)
    (a : SalesAnalyzer) (q : String) (df : DataFrame) (e : PyError)
    (hdf : a.df = some df) (hmk : mkSmart df a.llm = .error e) :
    analyze mkSmart chat a q =
      (.raised e, a, { mkSmartCalls := 1, chatCalls := 0, log := [] }) := by
  simp [analyze, hdf, hmk]

/-- Witness for C9 at a concrete failing view constructor. -/
theorem analyze_view_error_propagates_witness :
    analyze errMk okChat sampleAnalyzer "Test query" =
      (.raised (.exn "bad view"), sampleAnalyzer,
        { mkSmartCalls := 1, chatCalls := 0, log := [] }) :=
  analyze_view_error_propagates errMk okChat sampleAnalyzer "Test query"
    sampleDf (.exn "bad view") rfl rfl

/-- Claim C10: since `plt` is never imported or defined in the module,
every invocation of `save_plot` — for every filename — raises
`NameError` at the figure-pending check, with no save, no close, and no
output. -/
theorem save_plot_always_raises_nameError (filename : String) :
    save_plot module_plt filename =
      (.error (.nameError "name 'plt' is not defined"),
        { savefigCalls := [], closeCalls := 0, log := [] }) := rfl
